import Mathlib

/-!
Verification of the erroring test client (testclients/erroring.go) and the
multi-client service slot-duration routing (multi package) of go-eth2-client.

Modelling conventions:
- Go float64 values (errorRate, the random roll) are modelled as rationals;
  the claims proved only compare them with 0 and 1, where float and rational
  order agree.
- A Go (value, error) return pair is modelled as a product of the value and
  an optional error string; an error constructed by errors.New or fmt.Errorf
  is identified by its message where messages cannot collide, and by an
  inductive tag where identity matters (the multi service).
- The random roll of rand.Float64 is passed as an explicit parameter in the
  interval [0, 1).
- A Go panic (a failed unchecked interface assertion) is modelled as the
  error branch of an Except, distinct from an ordinary returned error.
-/

/-- Identity of the wrapped service: the Name and Address accessors of the
next eth2client.Service. -/
structure NextService where
  name : String
  address : String
deriving DecidableEq

/-- The Erroring struct of testclients/erroring.go: an error rate and the
identity of the wrapped next service. -/
structure Erroring where
  errorRate : ℚ
  next : NextService
deriving DecidableEq

/-- NewErroring from testclients/erroring.go lines 35-55: rejects a nil next
service, then an error rate below 0, then an error rate above 1, and
otherwise returns the client holding the supplied rate and service. The nil
next service is modelled by an Option. -/
def NewErroring (errorRate : ℚ) (next : Option NextService) : Except String Erroring :=
  match next with
  | none => .error "no next service supplied"
  | some n =>
    if errorRate < 0 then .error "error rate cannot be less than 0"
    else if errorRate > 1 then .error "error rate cannot be more than 1"
    else .ok { errorRate := errorRate, next := n }

/-- maybeError from testclients/erroring.go lines 70-77: draws a roll from
rand.Float64 (passed explicitly here) and returns the injected error exactly
when the roll is strictly below the error rate. -/
def maybeError (s : Erroring) (roll : ℚ) : Option String :=
  if roll < s.errorRate then some "error" else none

/-- The message built by fmt.Errorf in every unsupported-capability branch of
the Erroring methods. -/
def unsupportedMsg (s : Erroring) : String :=
  s.next.name ++ "@" ++ s.next.address ++ " does not support this call"

/-- Outcome of one Erroring method call: the returned value, the returned
error, and instrumentation recording whether the wrapped next service was
invoked. -/
structure OpResult (Res : Type) where
  value : Res
  err : Option String
  nextInvoked : Bool
deriving DecidableEq

/-- The shared body of every Erroring method (testclients/erroring.go lines
80-655): first maybeError, whose error is returned with the zero value of
the result type; then the interface assertion on the next service, whose
failure returns the does-not-support error with the zero value; otherwise
the call is forwarded to the wrapped service with the arguments unchanged.
The parameters are the zero value of the result type, whether the next
service implements the provider interface of this operation, and the wrapped
call itself. -/
def erroringOp {Args Res : Type} (s : Erroring) (roll : ℚ) (zero : Res)
    (supports : Bool) (call : Args → Res × Option String) (args : Args) :
    OpResult Res :=
  match maybeError s roll with
  | some err => { value := zero, err := some err, nextInvoked := false }
  | none =>
    if supports then
      { value := (call args).1, err := (call args).2, nextInvoked := true }
    else
      { value := zero, err := some (unsupportedMsg s), nextInvoked := false }

/-- Erroring.SlotDuration (lines 155-164): the erroringOp pattern at zero
duration 0, with the duration modelled as an integer nanosecond count. -/
def Erroring.slotDuration (s : Erroring) (roll : ℚ) (supports : Bool)
    (call : Unit → Int × Option String) : OpResult Int :=
  erroringOp s roll 0 supports call ()

/-- Erroring.AttesterDuties (lines 360-369): the erroringOp pattern at zero
value nil, with the duty payloads opaque (modelled as naturals) and the
arguments the epoch and the validator index list. -/
def Erroring.attesterDuties (s : Erroring) (roll : ℚ) (supports : Bool)
    (call : ℕ × List ℕ → List ℕ × Option String) (epoch : ℕ)
    (validatorIndices : List ℕ) : OpResult (List ℕ) :=
  erroringOp s roll [] supports call (epoch, validatorIndices)

/-- Erroring.SubmitAttestations (lines 347-356): the erroringOp pattern for a
submission returning only an error, so the result type is Unit. -/
def Erroring.submitAttestations (s : Erroring) (roll : ℚ) (supports : Bool)
    (call : List ℕ → Unit × Option String) (attestations : List ℕ) :
    OpResult Unit :=
  erroringOp s roll () supports call attestations

/-- One client of the multi-service active roster: whether it implements
eth2client.SlotDurationProvider, and the (duration, error) pair its
SlotDuration call returns. -/
structure Client where
  supportsSlotDuration : Bool
  slotDurationResult : Int × Option String
deriving DecidableEq

/-- The multi Service: its current active roster in order. -/
structure Service where
  activeClients : List Client
deriving DecidableEq

/-- Error identity for the multi SlotDuration: the no-active-clients error
constructed by errors.New is a distinct value from any error returned by an
endpoint call, so the two are kept apart by constructor. -/
inductive MultiErr
  | noActiveClients
  | client (msg : String)
deriving DecidableEq

/-- Service.SlotDuration of the multi package (erroring.go appendix lines
679-689): under the roster read lock, an empty roster returns (0, the
no-active-clients error); otherwise the first active client is cast to
SlotDurationProvider with an unchecked type assertion — a failed assertion
panics, modelled as the Except error branch — and its result pair is
returned unchanged. No failover to later roster entries is performed. -/
def Service.SlotDuration (s : Service) : Except String (Int × Option MultiErr) :=
  match s.activeClients with
  | [] => .ok (0, some .noActiveClients)
  | c :: _ =>
    if c.supportsSlotDuration then
      .ok (c.slotDurationResult.1, (Option.map MultiErr.client c.slotDurationResult.2))
    else
      .error "interface conversion: client does not implement SlotDurationProvider"

/-- Events of the multi SlotDuration body, for reasoning about lock scope. -/
inductive Event
  | acquireRLock
  | readRoster
  | endpointCall
  | releaseRLock
deriving DecidableEq

/-- Event trace of Service.SlotDuration: RLock on entry, RUnlock deferred to
function exit (so it is the last event, after any endpoint call), the roster
length read, and the endpoint call when the roster is non-empty and its first
client supports the operation (a failed assertion panics before any call,
with the deferred unlock still running). -/
def slotDurationTrace (s : Service) : List Event :=
  match s.activeClients with
  | [] => [.acquireRLock, .readRoster, .releaseRLock]
  | c :: _ =>
    if c.supportsSlotDuration then
      [.acquireRLock, .readRoster, .endpointCall, .releaseRLock]
    else
      [.acquireRLock, .readRoster, .releaseRLock]

/-- Whether some endpoint call in the trace happens while the roster lock is
held; the second argument is whether the lock is held before the trace. -/
def callUnderLock : List Event → Bool → Bool
  | [], _ => false
  | Event.acquireRLock :: rest, _ => callUnderLock rest true
  | Event.releaseRLock :: rest, _ => callUnderLock rest false
  | Event.endpointCall :: rest, held => held || callUnderLock rest held
  | Event.readRoster :: rest, held => callUnderLock rest held

/-- Modelled from the spec: the corroboration policy of the Call Router for
best-effort operations is not under src (only the static-value SlotDuration
path of the multi package is); per the spec, with corroboration enabled the
router accepts a value only on majority agreement among the returned values,
and otherwise surfaces a distinct inconsistent-cluster error, never picking
one answer. -/
def corroborate {α : Type} [DecidableEq α] (results : List α) : Except String α :=
  match results.find? (fun v => results.length < 2 * results.count v) with
  | some v => .ok v
  | none => .error "inconsistent cluster"

/-- Sample wrapped-service identity used by witnesses. -/
def sampleNext : NextService := { name := "client", address := "addr" }

/-- Erroring client with rate 0, used by witnesses. -/
def sampleErroring0 : Erroring := { errorRate := 0, next := sampleNext }

/-- Erroring client with rate 1/2, used by witnesses. -/
def sampleErroringHalf : Erroring := { errorRate := 1/2, next := sampleNext }

/-- Erroring client with rate 1, used by witnesses. -/
def sampleErroring1 : Erroring := { errorRate := 1, next := sampleNext }

/-- Roster client that supports SlotDuration and returns an error. -/
def cexClientA : Client := { supportsSlotDuration := true, slotDurationResult := (0, some "boom") }

/-- Roster client that supports SlotDuration and succeeds with value 12. -/
def cexClientB : Client := { supportsSlotDuration := true, slotDurationResult := (12, none) }

/-- Roster client that does not support SlotDuration. -/
def cexClientU : Client := { supportsSlotDuration := false, slotDurationResult := (7, none) }

/-- Two-client roster: first errors, second would succeed. -/
def cexService : Service := { activeClients := [cexClientA, cexClientB] }

/-- Roster holding no clients. -/
def emptyService : Service := { activeClients := [] }

/-- Roster whose single client lacks the SlotDuration capability. -/
def cexServiceU : Service := { activeClients := [cexClientU] }

/-- Helper: two distinct values cannot each occur more than half the time. -/
lemma count_pair_le_length {α : Type} [DecidableEq α] (l : List α) (v w : α)
    (hvw : v ≠ w) : l.count v + l.count w ≤ l.length := by
  induction l with
  | nil => simp
  | cons a rest ih =>
    rcases eq_or_ne a v with rfl | hv
    · rw [List.count_cons_self, List.count_cons_of_ne (Ne.symm hvw), List.length_cons]
      omega
    · rcases eq_or_ne a w with rfl | hw
      · rw [List.count_cons_self, List.count_cons_of_ne hvw, List.length_cons]
        omega
      · rw [List.count_cons_of_ne (Ne.symm hv), List.count_cons_of_ne (Ne.symm hw),
          List.length_cons]
        omega

/-- C4: for every Erroring operation, when the wrapped next service does not
implement the provider interface of the operation, the wrapped service is
never invoked, and (when no error is injected by maybeError) the call returns
the zero value of the result type together with the does-not-support error
naming the wrapped client by name and address. -/
theorem erroring_unsupported (Args Res : Type) (s : Erroring) (roll : ℚ)
    (zero : Res) (call : Args → Res × Option String) (args : Args) :
    (erroringOp s roll zero false call args).nextInvoked = false ∧
    (maybeError s roll = none →
      erroringOp s roll zero false call args =
        { value := zero,
          err := some (s.next.name ++ "@" ++ s.next.address ++
            " does not support this call"),
          nextInvoked := false }) := by
  constructor
  · unfold erroringOp
    cases h : maybeError s roll <;> simp [h]
  · intro h
    unfold erroringOp
    rw [h]
    simp [unsupportedMsg]

/-- Witness for C4 at the rate-0 client and a trivial wrapped call. -/
theorem erroring_unsupported_witness :
    (erroringOp sampleErroring0 0 (0 : Int) false
      (fun _ : Unit => (0, none)) ()).nextInvoked = false ∧
    erroringOp sampleErroring0 0 (0 : Int) false (fun _ : Unit => (0, none)) () =
      { value := 0, err := some "client@addr does not support this call",
        nextInvoked := false } := by
  have h := erroring_unsupported Unit Int sampleErroring0 0 0 (fun _ => (0, none)) ()
  exact ⟨h.1, (h.2 (by decide)).trans (by decide)⟩

/-- C6: the Erroring decorator is a pure forwarding shim: when the roll does
not fall below the error rate and the wrapped service supports the
operation, the decorated call returns exactly the value and error the
wrapped call returns on the unchanged arguments, and the wrapped service is
invoked. -/
theorem erroring_forwarding (Args Res : Type) (s : Erroring) (roll : ℚ)
    (zero : Res) (call : Args → Res × Option String) (args : Args)
    (hroll : ¬ roll < s.errorRate) :
    erroringOp s roll zero true call args =
      { value := (call args).1, err := (call args).2, nextInvoked := true } := by
  unfold erroringOp maybeError
  simp [hroll]

/-- Witness for C6 at the rate-0 client and a wrapped call returning 42. -/
theorem erroring_forwarding_witness :
    erroringOp sampleErroring0 0 (0 : Int) true (fun _ : Unit => (42, none)) () =
      { value := 42, err := none, nextInvoked := true } := by
  have h := erroring_forwarding Unit Int sampleErroring0 0 0
    (fun _ => (42, none)) () (by decide)
  simpa using h

/-- C7: NewErroring fails exactly when the next service is nil or the error
rate lies outside [0, 1]; on every other input it returns the client holding
exactly the supplied rate and next service, with no error. -/
theorem newErroring_spec (errorRate : ℚ) (next : Option NextService) :
    ((∃ msg, NewErroring errorRate next = .error msg) ↔
      (next = none ∨ errorRate < 0 ∨ 1 < errorRate)) ∧
    (∀ n, next = some n → 0 ≤ errorRate → errorRate ≤ 1 →
      NewErroring errorRate next = .ok { errorRate := errorRate, next := n }) := by
  constructor
  · cases next with
    | none =>
      exact ⟨fun _ => Or.inl rfl, fun _ => ⟨"no next service supplied", rfl⟩⟩
    | some n =>
      unfold NewErroring
      by_cases h0 : errorRate < 0
      · simp [h0]
      · by_cases h1 : errorRate > 1
        · simp [h0, h1]
        · simp [h0, h1]
  · intro n hn h0 h1
    subst hn
    simp only [NewErroring]
    rw [if_neg (not_lt.mpr h0), if_neg (not_lt.mpr h1)]

/-- Witness for C7 at rate 1/2 and the sample next service. -/
theorem newErroring_spec_witness :
    NewErroring (1/2) (some sampleNext) =
      .ok { errorRate := 1/2, next := sampleNext } := by
  have h := newErroring_spec (1/2) (some sampleNext)
  exact h.2 sampleNext rfl (by norm_num) (by norm_num)

/-- C9: in every Erroring operation the injected-error check runs first:
whenever maybeError fires, the call returns the zero value of the result
type together with the injected error, the wrapped service is never invoked
(so submissions have no side effect), independent of the capability check
and of the wrapped call; and the injected error is the fixed string. -/
theorem erroring_inject_first (Args Res : Type) (s : Erroring) (roll : ℚ)
    (zero : Res) (supports : Bool) (call : Args → Res × Option String)
    (args : Args) (e : String) (h : maybeError s roll = some e) :
    erroringOp s roll zero supports call args =
      { value := zero, err := some e, nextInvoked := false } ∧ e = "error" := by
  constructor
  · unfold erroringOp
    rw [h]
  · unfold maybeError at h
    by_cases hr : roll < s.errorRate
    · rw [if_pos hr] at h
      exact (Option.some.inj h).symm
    · rw [if_neg hr] at h
      cases h

/-- Witness for C9 at the rate-1 client: the injection fires and a capable
wrapped call returning 42 is never reached. -/
theorem erroring_inject_first_witness :
    erroringOp sampleErroring1 0 (0 : Int) true (fun _ : Unit => (42, none)) () =
      { value := 0, err := some "error", nextInvoked := false } := by
  have h := erroring_inject_first Unit Int sampleErroring1 0 0 true
    (fun _ => (42, none)) () "error" (by decide)
  exact h.1

/-- C10: maybeError fires exactly when the roll is strictly below the error
rate; with the roll drawn from [0, 1), rate 0 never injects and rate 1
always injects. -/
theorem maybeError_spec (s : Erroring) (roll : ℚ) (h0 : 0 ≤ roll)
    (h1 : roll < 1) :
    ((maybeError s roll).isSome ↔ roll < s.errorRate) ∧
    (s.errorRate = 0 → maybeError s roll = none) ∧
    (s.errorRate = 1 → maybeError s roll = some "error") := by
  refine ⟨?_, ?_, ?_⟩
  · unfold maybeError
    by_cases hr : roll < s.errorRate <;> simp [hr]
  · intro he
    unfold maybeError
    rw [he, if_neg (not_lt.mpr h0)]
  · intro he
    unfold maybeError
    rw [he, if_pos h1]

/-- Witness for C10 at rate 1/2 and roll 1/4. -/
theorem maybeError_spec_witness :
    (maybeError sampleErroringHalf (1/4)).isSome ↔
      (1/4 : ℚ) < sampleErroringHalf.errorRate := by
  have h := maybeError_spec sampleErroringHalf (1/4) (by norm_num) (by norm_num)
  exact h.1

/-- C1 counterexample: at the concrete two-client roster whose first client
errors with boom and whose second client would succeed with value 12, the
multi SlotDuration returns the first client error (Go pair (0, error)): the
claim says the router would try the next roster entry on error and fail only
after every entry has failed, but no failover happens and a failure is
returned although the second entry succeeds. -/
theorem slotDuration_failover_cex :
    cexService.activeClients = [cexClientA, cexClientB] ∧
    cexClientA.slotDurationResult.2 = some "boom" ∧
    cexClientB.slotDurationResult.2 = none ∧
    Service.SlotDuration cexService = .ok (0, some (MultiErr.client "boom")) :=
  ⟨rfl, rfl, rfl, rfl⟩

/-- C1 (amended): with a non-empty active roster whose first client supports
the operation, the multi SlotDuration returns that first client result pair
unchanged and never consults later roster entries (the outcome is identical
for any two tails). -/
theorem slotDuration_first_client_only (c : Client) (rest rest2 : List Client)
    (hsup : c.supportsSlotDuration = true) :
    Service.SlotDuration { activeClients := c :: rest } =
      Service.SlotDuration { activeClients := c :: rest2 } ∧
    Service.SlotDuration { activeClients := c :: rest } =
      .ok (c.slotDurationResult.1, Option.map MultiErr.client c.slotDurationResult.2) := by
  unfold Service.SlotDuration
  simp [hsup]

/-- Witness for the amended C1 at the boom-then-succeed roster. -/
theorem slotDuration_first_client_only_witness :
    Service.SlotDuration { activeClients := [cexClientA, cexClientB] } =
      Service.SlotDuration { activeClients := [cexClientA] } ∧
    Service.SlotDuration { activeClients := [cexClientA, cexClientB] } =
      .ok (0, some (MultiErr.client "boom")) := by
  have h := slotDuration_first_client_only cexClientA [cexClientB] [] rfl
  exact ⟨h.1, h.2.trans rfl⟩

/-- C2 counterexample: at the one-client roster whose client lacks the
SlotDuration capability, the unchecked interface assertion fails, so the
call panics (the Except error branch of the model) instead of returning a
capability-gap error value. -/
theorem slotDuration_capability_cex :
    Service.SlotDuration cexServiceU =
      .error "interface conversion: client does not implement SlotDurationProvider" :=
  rfl

/-- C2 (amended): whenever the active roster is non-empty and its first
client does not support the slot-duration operation, the multi SlotDuration
panics through the failed unchecked type assertion; it does not return a
capability-gap error. -/
theorem slotDuration_unsupported_panics (c : Client) (rest : List Client)
    (hsup : c.supportsSlotDuration = false) :
    Service.SlotDuration { activeClients := c :: rest } =
      .error "interface conversion: client does not implement SlotDurationProvider" := by
  unfold Service.SlotDuration
  simp [hsup]

/-- Witness for the amended C2 at the incapable single-client roster. -/
theorem slotDuration_unsupported_panics_witness :
    Service.SlotDuration { activeClients := [cexClientU] } =
      .error "interface conversion: client does not implement SlotDurationProvider" :=
  slotDuration_unsupported_panics cexClientU [] rfl

/-- C3 counterexample: at the concrete two-client roster, the endpoint call
of the multi SlotDuration happens while the roster read lock is held, since
the RUnlock is deferred to function exit; this refutes the claim that the
lock scope never covers the outbound endpoint call. -/
theorem slotDuration_lock_cex :
    callUnderLock (slotDurationTrace cexService) false = true :=
  rfl

/-- C3 (amended): the multi SlotDuration holds the roster read lock across
the outbound endpoint call: whenever the roster is non-empty and its first
client supports the operation (so an endpoint call is made at all), that
call occurs with the read lock held. -/
theorem slotDuration_lock_across_call (c : Client) (rest : List Client)
    (hsup : c.supportsSlotDuration = true) :
    callUnderLock (slotDurationTrace { activeClients := c :: rest }) false = true := by
  unfold slotDurationTrace
  simp [hsup, callUnderLock]

/-- Witness for the amended C3 at the boom-then-succeed roster. -/
theorem slotDuration_lock_across_call_witness :
    callUnderLock (slotDurationTrace { activeClients := [cexClientA, cexClientB] })
      false = true :=
  slotDuration_lock_across_call cexClientA [cexClientB] rfl

/-- C5: the multi SlotDuration returns the pair of zero duration and the
no-active-clients error exactly when the active roster is empty, and with an
empty roster no endpoint is invoked. -/
theorem slotDuration_empty_roster (s : Service) :
    (Service.SlotDuration s = .ok (0, some MultiErr.noActiveClients) ↔
      s.activeClients = []) ∧
    (s.activeClients = [] → Event.endpointCall ∉ slotDurationTrace s) := by
  rcases s with ⟨cs⟩
  cases cs with
  | nil =>
    exact ⟨by simp [Service.SlotDuration], fun _ => by decide⟩
  | cons c rest =>
    constructor
    · simp only [Service.SlotDuration]
      by_cases hsup : c.supportsSlotDuration
      · simp only [hsup, if_true]
        constructor
        · intro h
          exfalso
          injection h with h2
          have h3 := congrArg Prod.snd h2
          simp only at h3
          cases hcr : c.slotDurationResult.2 <;> rw [hcr] at h3 <;> simp at h3
        · intro h
          exact absurd h (List.cons_ne_nil c rest)
      · simp [hsup]
    · intro h
      exact absurd h (List.cons_ne_nil c rest)

/-- Witness for C5 at the empty roster. -/
theorem slotDuration_empty_roster_witness :
    Service.SlotDuration emptyService = .ok (0, some MultiErr.noActiveClients) ∧
    Event.endpointCall ∉ slotDurationTrace emptyService := by
  have h := slotDuration_empty_roster emptyService
  exact ⟨h.1.mpr rfl, h.2 rfl⟩

/-- C8: for a best-effort operation with corroboration enabled and an odd
number of returned values, when a strict majority of the endpoints agree on
a value the router returns that value, and when no value has a strict
majority it returns the distinct inconsistent-cluster error, never silently
picking one answer. Settled against the corroborate model, since the
best-effort router of the multi package is not under src. -/
theorem corroborate_majority (results : List ℕ) (v : ℕ)
    (hodd : results.length % 2 = 1) :
    (results.length < 2 * results.count v → corroborate results = .ok v) ∧
    ((∀ w ∈ results, 2 * results.count w ≤ results.length) →
      corroborate results = .error "inconsistent cluster") := by
  constructor
  · intro hmaj
    have hpos : 0 < results.count v := by omega
    have hvmem : v ∈ results := List.count_pos_iff.mp hpos
    have hsome : (results.find? (fun w => results.length < 2 * results.count w)).isSome := by
      rw [List.find?_isSome]
      exact ⟨v, hvmem, by simpa using hmaj⟩
    obtain ⟨w, hw⟩ := Option.isSome_iff_exists.mp hsome
    have hpw := List.find?_some hw
    have hwmaj : results.length < 2 * results.count w := by simpa using hpw
    have hwv : w = v := by
      by_contra hne
      have hle := count_pair_le_length results v w (fun h => hne h.symm)
      omega
    unfold corroborate
    rw [hw, hwv]
  · intro hno
    have hnone : results.find? (fun w => results.length < 2 * results.count w) = none := by
      rw [List.find?_eq_none]
      intro x hx
      simpa using Nat.not_lt.mpr (hno x hx)
    unfold corroborate
    rw [hnone]

/-- Witness for C8: among three returned values two agree on 1, and the
router returns 1. -/
theorem corroborate_majority_witness :
    corroborate [1, 1, 2] = Except.ok 1 := by
  have h := corroborate_majority [1, 1, 2] 1 (by decide)
  exact h.1 (by decide)
